import Mathlib

/-!
Shallow embedding of the ephemeral console-machine lifecycle core of
flyctl (internal/command/console/console.go): machine selection,
ephemeral provisioning, destruction-race diagnosis, and guaranteed
teardown, together with theorems settling the specification claims.

External collaborators (fleet API, prompt, ssh transport, app-config
derivation) are modelled as oracle fields of an environment record;
the control flow of console.go itself is translated function by
function.
-/

deriving instance DecidableEq for Except

namespace Console

/-- Machine lifecycle states (api.MachineState constants). -/
inductive MachineState where
  | created
  | starting
  | started
  | stopping
  | destroying
  | destroyed
  | replacing
deriving DecidableEq, Repr

/-- Modelled from the spec: the exit-cause request record attached to an
exit event (api.MachineRequest, external to the excerpt). Its exit-code
accessor GetExitCode may fail on malformed data, modelled by exitCode
being none. -/
structure ExitRequest where
  exitCode : Option Int
deriving DecidableEq, Repr

/-- A lifecycle event of a machine (api.MachineEvent): a type tag and,
for exit events, an optional request record. -/
structure MachineEvent where
  type : String
  request : Option ExitRequest
deriving DecidableEq, Repr

/-- A remote machine (api.Machine), with the fields console.go reads.
isReleaseCommand models the external accessor IsFlyAppsReleaseCommand. -/
structure Machine where
  id : String
  state : MachineState
  privateIP : String
  region : String
  name : String
  events : List MachineEvent
  isReleaseCommand : Bool
deriving DecidableEq, Repr

/-- Errors. external and flaps are opaque collaborator errors (flaps
carries the HTTP-like response status code of flaps.FlapsError); msg is
errors.New in console.go; wrap is fmt.Errorf with a wrapping directive;
exitedWithCode renders the message machine exited unexpectedly with
code N. -/
inductive Err where
  | external (tag : String)
  | flaps (statusCode : Nat) (tag : String)
  | msg (s : String)
  | wrap (s : String) (e : Err)
  | exitedWithCode (code : Int)
deriving DecidableEq, Repr

/-- errors.As(err, flapsErr) together with the comparison
flapsErr.ResponseStatusCode == 404: unwraps wrapped errors looking for a
flaps error with status 404. -/
def Err.as404 : Err → Bool
  | .wrap _ e => e.as404
  | .flaps statusCode _ => statusCode == 404
  | _ => false

/-- A cancellation context: whether it is cancelled and its deadline in
time units (seconds). -/
structure Ctx where
  cancelled : Bool
  deadline : Option Nat
deriving DecidableEq, Repr

/-- context.Background(): never cancelled, no deadline. -/
def Ctx.background : Ctx := ⟨false, none⟩

/-- context.WithTimeout: same cancellation state, deadline set. -/
def Ctx.withTimeout (c : Ctx) (t : Nat) : Ctx := { c with deadline := some t }

/-- Machine guest (compute size) description. -/
structure MachineGuest where
  cpuKind : String
  cpus : Nat
  memoryMb : Nat
deriving DecidableEq, Repr

/-- Modelled from the spec: the fixed preset table api.MachinePresets
(external to the excerpt); shared-cpu-1x is the minimal one-vCPU shared
preset. -/
def MachinePresets : String → Option MachineGuest := fun s =>
  if s = "shared-cpu-1x" then some ⟨"shared", 1, 256⟩ else none

/-- A machine configuration (api.MachineConfig) as console.go touches
it: the image reference, the guest size, and an opaque remainder
standing for every field the excerpt leaves untouched. -/
structure MachineConfig where
  image : String
  guest : Option MachineGuest
  restOfConfig : String
deriving DecidableEq, Repr

/-- api.LaunchMachineInput as built by makeEphemeralMachine. -/
structure LaunchMachineInput where
  appID : String
  orgSlug : String
  config : MachineConfig
deriving DecidableEq, Repr

/-- The current release of the app (only its image reference is read). -/
structure Release where
  imageRef : String
deriving DecidableEq, Repr

/-- api.AppCompact as console.go reads it. -/
structure AppCompact where
  name : String
  id : String
  platformVersion : String
  orgId : String
deriving DecidableEq, Repr

/-- The app configuration, with the results of its two external methods
ToConsoleMachineConfig and ValidateForMachinesPlatform pre-resolved as
data, plus the console command string. -/
structure AppConfig where
  consoleCommand : String
  consoleMachineConfig : Except Err MachineConfig
  validationError : Option Err
deriving DecidableEq, Repr

/-- Command-line flags and positional arguments of the console command. -/
structure Flags where
  selectFlag : Bool
  args : List String
  user : String
deriving DecidableEq, Repr

/-- Observable effects of a run: user-facing output, warnings, the
prompt shown, the launch request submitted, and the Stop and Wait calls
issued to the fleet API (recording the context each call runs under). -/
inductive Effect where
  | out (s : String)
  | warn (s : String)
  | prompted (options : List String)
  | launched (input : LaunchMachineInput)
  | stopped (c : Ctx) (id : String) (timeout : Nat)
  | waited (c : Ctx) (id : String) (target : MachineState) (timeout : Nat)
deriving DecidableEq, Repr

/-- The environment: caller context, flags, and the external
collaborators (GraphQL api client, flaps client, prompt, ssh) as
oracles. -/
structure Env where
  appName : String
  flags : Flags
  ctx : Ctx
  getAppCompact : String → Except Err AppCompact
  getAppCurrentReleaseMachines : String → Except Err (Option Release)
  flapsNew : AppCompact → Except Err Unit
  flapsGet : String → Except Err Machine
  flapsListActive : Except Err (List Machine)
  flapsLaunch : LaunchMachineInput → Except Err Machine
  flapsWait : Ctx → Machine → MachineState → Nat → Except Err Unit
  flapsStop : Ctx → String → Nat → Except Err Unit
  appConfigFromContext : Option AppConfig
  appConfigFromRemote : Except Err AppConfig
  promptSelect : List String → Except Err Nat
  bringUpAgent : Ctx → Except Err Unit
  sshConnect : Ctx → String → Except Err Unit
  sshConsole : Ctx → String → Option Err

/-- Result of the selectMachine family: the Go triple
(machine *api.Machine, ephemeral bool, err error) plus the trace of
effects emitted along the way. -/
structure MachineSel where
  machine : Option Machine
  ephemeral : Bool
  err : Option Err
  trace : List Effect
deriving DecidableEq, Repr

/-- checkMachineDestruction: re-fetch the machine; if the fetch fails,
report a status-check failure; if the state is not destroyed or
destroying, return the first error unchanged; otherwise diagnose from
the first exit event. Returns the Go pair (destroyed bool, err error). -/
def checkMachineDestruction (env : Env) (machine : Machine)
    (firstErr : Option Err) : Bool × Option Err :=
  match env.flapsGet machine.id with
  | .error e => (false, some (.wrap "failed to check status of machine" e))
  | .ok m =>
    if m.state ≠ MachineState.destroyed ∧ m.state ≠ MachineState.destroying then
      (false, firstErr)
    else
      match m.events.find? (fun event => event.type == "exit") with
      | none => (true, some (.msg "machine was destroyed unexpectedly"))
      | some exitEvent =>
        match exitEvent.request with
        | none => (true, some (.msg "machine was destroyed unexpectedly"))
        | some request =>
          match request.exitCode with
          | none => (true, some (.msg "machine exited unexpectedly"))
          | some exitCode => (true, some (.exitedWithCode exitCode))

/-- Warning emitted by makeEphemeralMachine when the machine may be left
behind. -/
def manualDestroyMachineMsg : String :=
  "You may need to destroy the machine manually (fly machine destroy)."

/-- Warnings emitted by the teardown sequence. -/
def manualDestroyItMsg : String :=
  "You may need to destroy it manually (fly machine destroy)."

/-- makeEphemeralMachine: require a current release, derive the console
machine configuration, override its image with the release image and
its guest with the shared-cpu-1x preset, launch, then wait up to 15
time units for the machine to be started. On a 404-class wait failure
the destruction-race resolver refines the diagnosis; when destruction
is not confirmed a manual-cleanup warning is emitted. -/
def makeEphemeralMachine (env : Env) (app : AppCompact)
    (appConfig : AppConfig) : MachineSel :=
  match env.getAppCurrentReleaseMachines app.name with
  | .error e => ⟨none, false, some e, []⟩
  | .ok none =>
    ⟨none, false,
      some (.msg "cannot create an ephemeral machine since the app has not yet been released"),
      []⟩
  | .ok (some currentRelease) =>
    match appConfig.consoleMachineConfig with
    | .error e =>
      ⟨none, false,
        some (.wrap "failed to generate ephemeral machine configuration" e), []⟩
    | .ok machConfig0 =>
      let machConfig : MachineConfig :=
        { machConfig0 with
          image := currentRelease.imageRef
          guest := MachinePresets "shared-cpu-1x" }
      let launchInput : LaunchMachineInput := ⟨app.id, app.orgId, machConfig⟩
      match env.flapsLaunch launchInput with
      | .error e =>
        ⟨none, false, some (.wrap "failed to launch ephemeral machine" e),
          [.launched launchInput]⟩
      | .ok machine =>
        let waitTimeout := 15
        let tr : List Effect :=
          [.launched launchInput,
           .out ("Created an ephemeral machine " ++ machine.id ++ " to run the console."),
           .waited env.ctx machine.id MachineState.started waitTimeout]
        match env.flapsWait env.ctx machine MachineState.started waitTimeout with
        | .ok _ => ⟨some machine, true, none, tr⟩
        | .error err =>
          if err.as404 then
            let checked := checkMachineDestruction env machine (some err)
            if checked.1 then
              ⟨none, false, checked.2, tr⟩
            else
              ⟨none, false, checked.2, tr ++ [.warn manualDestroyMachineMsg]⟩
          else
            ⟨none, false, some err, tr ++ [.warn manualDestroyMachineMsg]⟩

/-- getMachineByID: fetch the machine named by the first positional
argument; reject machines that are not started and release-command
machines; otherwise return it as non-ephemeral. -/
def getMachineByID (env : Env) : MachineSel :=
  let machineID := env.flags.args.headD ""
  match env.flapsGet machineID with
  | .error e => ⟨none, false, some e, []⟩
  | .ok machine =>
    if machine.state ≠ MachineState.started then
      ⟨none, false, some (.msg ("machine " ++ machineID ++ " is not started")), []⟩
    else if machine.isReleaseCommand then
      ⟨none, false,
        some (.msg ("machine " ++ machineID ++ " is a release command machine")), []⟩
    else
      ⟨some machine, false, none, []⟩

/-- The line shown for one machine in the interactive prompt. -/
def describeMachine (m : Machine) : String :=
  m.region ++ ": " ++ m.id ++ " " ++ m.privateIP ++ " " ++ m.name

/-- The filter applied to the active machines in interactive-pick mode. -/
def usableMachine (m : Machine) : Bool :=
  m.state == MachineState.started && !m.isReleaseCommand

/-- promptForMachine: reject a simultaneous explicit machine ID; list
the active machines, keep the started non-release-command ones, fail
when none remain; prompt with a create-ephemeral shortcut at index 0
followed by the filtered machines, index i at least 1 selecting the
machine at position i - 1. The out-of-range branch is unreachable for a
well-behaved prompt (Go would panic there). -/
def promptForMachine (env : Env) (app : AppCompact)
    (appConfig : AppConfig) : MachineSel :=
  if env.flags.args.length ≠ 0 then
    ⟨none, false, some (.msg "machine IDs cannot be used with -s/--select"), []⟩
  else
    match env.flapsListActive with
    | .error e => ⟨none, false, some e, []⟩
    | .ok machinesAll =>
      let machines := machinesAll.filter usableMachine
      if machines.length = 0 then
        ⟨none, false, some (.msg "no machines are available"), []⟩
      else
        let options :=
          "create an ephemeral shared-cpu-1x machine" :: machines.map describeMachine
        match env.promptSelect options with
        | .error e =>
          ⟨none, false, some (.wrap "failed to prompt for a machine" e),
            [.prompted options]⟩
        | .ok index =>
          if index = 0 then
            let made := makeEphemeralMachine env app appConfig
            ⟨made.machine, made.ephemeral, made.err, .prompted options :: made.trace⟩
          else
            match machines.get? (index - 1) with
            | some m => ⟨some m, false, none, [.prompted options]⟩
            | none =>
              ⟨none, false, some (.msg "panic: index out of range"),
                [.prompted options]⟩

/-- selectMachine: interactive pick when the select flag is set, an
explicit ID when exactly one argument is given, otherwise provision an
ephemeral machine. -/
def selectMachine (env : Env) (app : AppCompact) (appConfig : AppConfig) :
    MachineSel :=
  if env.flags.selectFlag then
    promptForMachine env app appConfig
  else if env.flags.args.length = 1 then
    getMachineByID env
  else
    makeEphemeralMachine env app appConfig

/-- The app-config resolution at the top of runConsole: the config from
the context when present, otherwise fetched from the backend. -/
def resolveAppConfig (env : Env) : Except Err AppConfig :=
  match env.appConfigFromContext with
  | some c => .ok c
  | none =>
    match env.appConfigFromRemote with
    | .ok c => .ok c
    | .error e => .error (.wrap "failed to fetch app config from backend" e)

/-- The interactive part of the session after selection: bring up the
ssh agent, connect to the machine, run the console command. Returns the
session error before any teardown. -/
def mainFlow (env : Env) (appConfig : AppConfig) (machine : Machine) :
    Option Err :=
  match env.bringUpAgent env.ctx with
  | .error e => some e
  | .ok _ =>
    match env.sshConnect env.ctx machine.privateIP with
    | .error e => some e
    | .ok _ => env.sshConsole env.ctx appConfig.consoleCommand

/-- The deferred teardown of an ephemeral machine: under a fresh
5-time-unit context derived from the background context (never from the
caller), issue Stop; on failure warn and do not wait; on success wait
for the destroyed state, warning on failure. Produces only effects,
never an error. -/
def teardownMachine (env : Env) (machine : Machine) : List Effect :=
  let stopTimeout := 5
  let stopCtx := Ctx.withTimeout Ctx.background stopTimeout
  let stopEff := Effect.stopped stopCtx machine.id stopTimeout
  match env.flapsStop stopCtx machine.id stopTimeout with
  | .error _ =>
    [stopEff, .warn "Failed to stop ephemeral machine", .warn manualDestroyItMsg]
  | .ok _ =>
    let waitEff := Effect.waited stopCtx machine.id MachineState.destroyed stopTimeout
    match env.flapsWait stopCtx machine MachineState.destroyed stopTimeout with
    | .error _ =>
      [stopEff, waitEff, .warn "Failed to wait for ephemeral machine to be destroyed",
       .warn manualDestroyItMsg]
    | .ok _ => [stopEff, waitEff]

/-- runConsole: fetch the app, require the machines platform, build the
flaps client, resolve and validate the app config, select a machine,
run the interactive session, and — exactly when the selection was
ephemeral — run the deferred teardown after the session concludes,
whatever its outcome. Returns the session error and the effect trace. -/
def runConsole (env : Env) : Option Err × List Effect :=
  match env.getAppCompact env.appName with
  | .error e => (some (.wrap "failed to get app" e), [])
  | .ok app =>
    if app.platformVersion ≠ "machines" then
      (some (.msg "console is only supported for the machines platform"), [])
    else
      match env.flapsNew app with
      | .error e => (some (.wrap "failed to create flaps client" e), [])
      | .ok _ =>
        match resolveAppConfig env with
        | .error e => (some e, [])
        | .ok appConfig =>
          match appConfig.validationError with
          | some e => (some e, [])
          | none =>
            let sel := selectMachine env app appConfig
            match sel.err with
            | some e => (some e, sel.trace)
            | none =>
              match sel.machine with
              | none => (some (.msg "panic: nil machine"), sel.trace)
              | some machine =>
                let mainErr := mainFlow env appConfig machine
                if sel.ephemeral then
                  (mainErr, sel.trace ++ teardownMachine env machine)
                else
                  (mainErr, sel.trace)

/-! ### Concrete fixtures used by witnesses and counterexamples -/

/-- A started, non-reserved machine. -/
def startedMachine : Machine :=
  ⟨"e2865641", MachineState.started, "fdaa:0:1", "mad", "crimson-star", [], false⟩

/-- The machine handed back by the launch oracle of the base
environment. -/
def launchedMachine : Machine :=
  ⟨"eph1234", MachineState.starting, "fdaa:0:9", "mad", "ephemeral-console", [], false⟩

/-- The app fixture. -/
def appW : AppCompact := ⟨"app1", "appid1", "machines", "org1"⟩

/-- The app-config fixture: console command, derivable machine config,
passing validation. -/
def cfgW : AppConfig :=
  ⟨"/bin/sh", .ok ⟨"derived-image", none, "base-config"⟩, none⟩

/-- A base environment whose oracles all succeed; witnesses override
individual fields. -/
def baseEnv : Env where
  appName := "app1"
  flags := ⟨false, [], "root"⟩
  ctx := ⟨false, none⟩
  getAppCompact := fun _ => .ok appW
  getAppCurrentReleaseMachines := fun _ => .ok (some ⟨"registry/app1:v7"⟩)
  flapsNew := fun _ => .ok ()
  flapsGet := fun _ => .ok startedMachine
  flapsListActive := .ok [startedMachine]
  flapsLaunch := fun _ => .ok launchedMachine
  flapsWait := fun _ _ _ _ => .ok ()
  flapsStop := fun _ _ _ => .ok ()
  appConfigFromContext := some cfgW
  appConfigFromRemote := .ok cfgW
  promptSelect := fun _ => .ok 1
  bringUpAgent := fun _ => .ok ()
  sshConnect := fun _ _ => .ok ()
  sshConsole := fun _ _ => none

/-- A machine whose re-fetch shows it destroyed, with a start event and
an exit event carrying exit code 137. -/
def destroyedMachine : Machine :=
  ⟨"eph1234", MachineState.destroyed, "fdaa:0:9", "mad", "ephemeral-console",
    [⟨"start", none⟩, ⟨"exit", some ⟨some 137⟩⟩], false⟩

/-- Environment whose machine re-fetch finds the destroyed machine. -/
def envDestroyed : Env := { baseEnv with flapsGet := fun _ => .ok destroyedMachine }

/-- Environment whose machine re-fetch itself fails. -/
def envFetchFails : Env :=
  { baseEnv with flapsGet := fun _ => .error (.external "connection reset") }

/-- Environment requesting both interactive selection and an explicit
machine ID. -/
def envConflict : Env := { baseEnv with flags := ⟨true, ["e2865641"], "root"⟩ }

/-- Environment requesting an explicit machine ID only. -/
def envExplicit : Env := { baseEnv with flags := ⟨false, ["e2865641"], "root"⟩ }

/-- Environment requesting interactive selection, whose prompt picks
index 0 (the create-ephemeral shortcut). -/
def envPickShortcut : Env :=
  { baseEnv with
    flags := ⟨true, [], "root"⟩
    promptSelect := fun _ => .ok 0 }

/-- Environment requesting interactive selection, whose prompt picks
index 1 (the first real machine). -/
def envPickFirst : Env := { baseEnv with flags := ⟨true, [], "root"⟩ }

/-- Environment whose app has no release yet. -/
def envNoRelease : Env :=
  { baseEnv with getAppCurrentReleaseMachines := fun _ => .ok none }

/-- Environment whose wait-for-started call times out (a non-404
failure); the teardown-path oracles still succeed. -/
def envWaitTimeout : Env :=
  { baseEnv with
    flapsWait := fun _ _ target _ =>
      if target = MachineState.started then
        .error (.external "timeout reached waiting for machine to started")
      else
        .ok () }

/-- Environment whose teardown stop request fails. -/
def envStopFails : Env :=
  { baseEnv with flapsStop := fun _ _ _ => .error (.external "stop rpc failed") }

/-- The effect trace of the successful ephemeral provisioning in the
base environment. -/
def ephTrace : List Effect :=
  [.launched ⟨"appid1", "org1",
      ⟨"registry/app1:v7", MachinePresets "shared-cpu-1x", "base-config"⟩⟩,
   .out "Created an ephemeral machine eph1234 to run the console.",
   .waited ⟨false, none⟩ "eph1234" MachineState.started 15]

/-! ### Claims about checkMachineDestruction -/

/-- Claim C2: when the re-fetched state is destroyed or destroying, the
resolver scans for the first exit event and returns (true,
UnexpectedDestruction) when there is none or it has no request record,
(true, UnexpectedExit) when the exit-code accessor fails, and (true,
ExitedWithCode code) otherwise. -/
theorem checkMachineDestruction_destroyed_diagnosis
    (env : Env) (mach m : Machine) (firstErr : Option Err)
    (hget : env.flapsGet mach.id = .ok m)
    (hdes : m.state = MachineState.destroyed ∨ m.state = MachineState.destroying) :
    (m.events.find? (fun event => event.type == "exit") = none →
      checkMachineDestruction env mach firstErr =
        (true, some (.msg "machine was destroyed unexpectedly")))
    ∧ (∀ ev, m.events.find? (fun event => event.type == "exit") = some ev →
        ev.request = none →
        checkMachineDestruction env mach firstErr =
          (true, some (.msg "machine was destroyed unexpectedly")))
    ∧ (∀ ev req, m.events.find? (fun event => event.type == "exit") = some ev →
        ev.request = some req → req.exitCode = none →
        checkMachineDestruction env mach firstErr =
          (true, some (.msg "machine exited unexpectedly")))
    ∧ (∀ ev req code, m.events.find? (fun event => event.type == "exit") = some ev →
        ev.request = some req → req.exitCode = some code →
        checkMachineDestruction env mach firstErr =
          (true, some (.exitedWithCode code))) := by
  have hstate :
      ¬(m.state ≠ MachineState.destroyed ∧ m.state ≠ MachineState.destroying) := by
    rcases hdes with h | h <;> simp [h]
  refine ⟨?_, ?_, ?_, ?_⟩
  · intro hfind
    unfold checkMachineDestruction
    rw [hget]
    simp only [if_neg hstate, hfind]
  · intro ev hfind hreq
    unfold checkMachineDestruction
    rw [hget]
    simp only [if_neg hstate, hfind, hreq]
  · intro ev req hfind hreq hcode
    unfold checkMachineDestruction
    rw [hget]
    simp only [if_neg hstate, hfind, hreq, hcode]
  · intro ev req code hfind hreq hcode
    unfold checkMachineDestruction
    rw [hget]
    simp only [if_neg hstate, hfind, hreq, hcode]

/-- Witness for C2: the spec example, events start then exit with code
137 on a destroyed machine, yields (true, exited with code 137). -/
theorem checkMachineDestruction_destroyed_diagnosis_witness :
    checkMachineDestruction envDestroyed launchedMachine (some (Err.flaps 404 "wait")) =
      (true, some (Err.exitedWithCode 137)) :=
  (checkMachineDestruction_destroyed_diagnosis envDestroyed launchedMachine
      destroyedMachine (some (Err.flaps 404 "wait")) (by decide)
      (Or.inl (by decide))).2.2.2
    ⟨"exit", some ⟨some 137⟩⟩ ⟨some 137⟩ 137 (by decide) rfl rfl

/-- Claim C5: when the re-fetch fails the resolver returns wasDestroyed
= false with a StatusCheckFailed error wrapping the new error, and when
the re-fetched state is neither destroyed nor destroying it returns
(false, firstError) unchanged. -/
theorem checkMachineDestruction_fetch_and_transient
    (env : Env) (mach : Machine) (firstErr : Option Err) :
    (∀ e, env.flapsGet mach.id = .error e →
      checkMachineDestruction env mach firstErr =
        (false, some (.wrap "failed to check status of machine" e)))
    ∧ (∀ m, env.flapsGet mach.id = .ok m →
        m.state ≠ MachineState.destroyed → m.state ≠ MachineState.destroying →
        checkMachineDestruction env mach firstErr = (false, firstErr)) := by
  constructor <;> intros <;> simp_all [checkMachineDestruction]

/-- Witness for C5: a failing re-fetch wraps the new error; a started
re-fetched machine leaves the first error unchanged. -/
theorem checkMachineDestruction_fetch_and_transient_witness :
    checkMachineDestruction envFetchFails launchedMachine (some (Err.external "w")) =
      (false, some (Err.wrap "failed to check status of machine"
        (Err.external "connection reset")))
    ∧ checkMachineDestruction baseEnv launchedMachine (some (Err.external "w")) =
      (false, some (Err.external "w")) :=
  ⟨(checkMachineDestruction_fetch_and_transient envFetchFails launchedMachine
      (some (Err.external "w"))).1 (Err.external "connection reset") (by decide),
   (checkMachineDestruction_fetch_and_transient baseEnv launchedMachine
      (some (Err.external "w"))).2 startedMachine (by decide) (by decide) (by decide)⟩

/-- Claim C10: whenever the resolver reports wasDestroyed = true the
accompanying error is non-nil, and provisioning hands back a machine
only as a success: whenever it returns a machine handle its error is
nil and ownership is ephemeral, so a confirmed-destroyed machine is
never surfaced as a provisioning success. -/
theorem destroyed_report_never_success :
    (∀ env mach firstErr, (checkMachineDestruction env mach firstErr).1 = true →
      ((checkMachineDestruction env mach firstErr).2).isSome)
    ∧ (∀ env app appConfig,
        ((makeEphemeralMachine env app appConfig).machine).isSome →
          (makeEphemeralMachine env app appConfig).err = none ∧
            (makeEphemeralMachine env app appConfig).ephemeral = true) := by
  constructor
  · intro env mach firstErr h
    unfold checkMachineDestruction at *
    cases hg : env.flapsGet mach.id with
    | error e => simp [hg] at h
    | ok m =>
      by_cases hs : m.state ≠ MachineState.destroyed ∧ m.state ≠ MachineState.destroying
      · simp [hg, hs] at h
      · cases hf : m.events.find? (fun event => event.type == "exit") with
        | none => simp [hg, hs, hf]
        | some ev =>
          cases hr : ev.request with
          | none => simp [hg, hs, hf, hr]
          | some req =>
            cases hc : req.exitCode <;> simp [hg, hs, hf, hr, hc]
  · intro env app appConfig h
    unfold makeEphemeralMachine at *
    cases hrel : env.getAppCurrentReleaseMachines app.name with
    | error e => simp [hrel] at h
    | ok rel =>
      cases rel with
      | none => simp [hrel] at h
      | some currentRelease =>
        cases hcfg : appConfig.consoleMachineConfig with
        | error e => simp [hrel, hcfg] at h
        | ok machConfig0 =>
          cases hl : env.flapsLaunch
              ⟨app.id, app.orgId,
                { machConfig0 with
                  image := currentRelease.imageRef
                  guest := MachinePresets "shared-cpu-1x" }⟩ with
          | error e => simp [hrel, hcfg, hl] at h
          | ok machine =>
            cases hw : env.flapsWait env.ctx machine MachineState.started 15 with
            | error err =>
              by_cases h404 : err.as404 = true
              · by_cases hd :
                    (checkMachineDestruction env machine (some err)).1 = true
                · simp [hrel, hcfg, hl, hw, h404, hd] at h
                · simp [hrel, hcfg, hl, hw, h404, hd] at h
              · simp [hrel, hcfg, hl, hw, h404] at h
            | ok _ => simp [hrel, hcfg, hl, hw]

/-- Witness for C10: the destroyed-machine diagnosis carries an error,
and the successful provisioning run in the base environment has a nil
error and ephemeral ownership. -/
theorem destroyed_report_never_success_witness :
    ((checkMachineDestruction envDestroyed launchedMachine
        (some (Err.external "w"))).2).isSome
    ∧ ((makeEphemeralMachine baseEnv appW cfgW).err = none ∧
        (makeEphemeralMachine baseEnv appW cfgW).ephemeral = true) :=
  ⟨destroyed_report_never_success.1 envDestroyed launchedMachine
      (some (Err.external "w")) (by decide),
   destroyed_report_never_success.2 baseEnv appW cfgW (by decide)⟩

/-! ### Claims about machine selection -/

/-- Claim C6: whenever both an explicit machine ID and interactive
selection are requested, selection fails with the conflicting-selectors
error and returns no machine; neither selector is silently preferred. -/
theorem conflicting_selectors (env : Env) (app : AppCompact)
    (appConfig : AppConfig) (hsel : env.flags.selectFlag = true)
    (hargs : env.flags.args ≠ []) :
    selectMachine env app appConfig =
      ⟨none, false, some (.msg "machine IDs cannot be used with -s/--select"), []⟩ := by
  have hlen : env.flags.args.length ≠ 0 := by
    simpa using hargs
  unfold selectMachine promptForMachine
  rw [hsel]
  simp [hlen]

/-- Witness for C6 at a concrete environment with the select flag set
and one positional machine ID. -/
theorem conflicting_selectors_witness :
    selectMachine envConflict appW cfgW =
      ⟨none, false, some (.msg "machine IDs cannot be used with -s/--select"), []⟩ :=
  conflicting_selectors envConflict appW cfgW (by decide) (by decide)

/-- Claim C7: in explicit-ID mode (select flag unset, exactly one
argument) selection runs getMachineByID, which rejects a fetched
machine that is not started, rejects a started release-command machine,
and otherwise returns the machine as non-ephemeral. -/
theorem explicit_id_selection (env : Env) :
    (∀ app appConfig, env.flags.selectFlag = false →
      env.flags.args.length = 1 →
      selectMachine env app appConfig = getMachineByID env)
    ∧ (∀ m, env.flapsGet (env.flags.args.headD "") = .ok m →
        m.state ≠ MachineState.started →
        getMachineByID env =
          ⟨none, false,
            some (.msg ("machine " ++ env.flags.args.headD "" ++ " is not started")),
            []⟩)
    ∧ (∀ m, env.flapsGet (env.flags.args.headD "") = .ok m →
        m.state = MachineState.started → m.isReleaseCommand = true →
        getMachineByID env =
          ⟨none, false,
            some (.msg ("machine " ++ env.flags.args.headD "" ++
              " is a release command machine")),
            []⟩)
    ∧ (∀ m, env.flapsGet (env.flags.args.headD "") = .ok m →
        m.state = MachineState.started → m.isReleaseCommand = false →
        getMachineByID env = ⟨some m, false, none, []⟩) := by
  refine ⟨?_, ?_, ?_, ?_⟩
  · intro app appConfig hsel hlen
    unfold selectMachine
    rw [hsel, hlen]
    simp
  · intro m hget hstate
    simp_all [getMachineByID]
  · intro m hget hstate hrel
    simp_all [getMachineByID]
  · intro m hget hstate hrel
    simp_all [getMachineByID]

/-- Witness for C7: the started non-reserved machine fixture is
accepted and returned as non-ephemeral, through selectMachine. -/
theorem explicit_id_selection_witness :
    selectMachine envExplicit appW cfgW = getMachineByID envExplicit
    ∧ getMachineByID envExplicit = ⟨some startedMachine, false, none, []⟩ :=
  ⟨(explicit_id_selection envExplicit).1 appW cfgW (by decide) (by decide),
   (explicit_id_selection envExplicit).2.2.2 startedMachine (by decide) (by decide)
     (by decide)⟩

/-- Counterexample to C8 as stated: in interactive-pick mode the prompt
offers a create-ephemeral shortcut at index 0 in front of the filtered
machines — choosing it provisions a new machine (returned with
isEphemeral = true) instead of mapping 1:1 into the filtered list. -/
theorem interactive_pick_shortcut_counterexample :
    (selectMachine envPickShortcut appW cfgW).machine = some launchedMachine
    ∧ (selectMachine envPickShortcut appW cfgW).ephemeral = true
    ∧ Effect.prompted ["create an ephemeral shared-cpu-1x machine",
        describeMachine startedMachine] ∈
        (selectMachine envPickShortcut appW cfgW).trace := by
  decide

/-- Claim C8 as amended: the candidate machines are exactly the active
machines that are started and not release-command machines; if that set
is empty selection fails with no-machines-available; the prompt offers
a create-ephemeral shortcut at index 0 followed by the candidates, a
choice of 0 delegates to ephemeral provisioning, and a choice i of at
least 1 returns candidate i - 1 as non-ephemeral. -/
theorem interactive_pick_amended (env : Env) (app : AppCompact)
    (appConfig : AppConfig) (machinesAll : List Machine)
    (hsel : env.flags.selectFlag = true) (hargs : env.flags.args = [])
    (hlist : env.flapsListActive = .ok machinesAll) :
    (∀ m, m ∈ machinesAll.filter usableMachine ↔
      (m ∈ machinesAll ∧ m.state = MachineState.started ∧ m.isReleaseCommand = false))
    ∧ (machinesAll.filter usableMachine = [] →
        selectMachine env app appConfig =
          ⟨none, false, some (.msg "no machines are available"), []⟩)
    ∧ (machinesAll.filter usableMachine ≠ [] →
        (env.promptSelect ("create an ephemeral shared-cpu-1x machine" ::
            (machinesAll.filter usableMachine).map describeMachine) = .ok 0 →
          selectMachine env app appConfig =
            ⟨(makeEphemeralMachine env app appConfig).machine,
             (makeEphemeralMachine env app appConfig).ephemeral,
             (makeEphemeralMachine env app appConfig).err,
             .prompted ("create an ephemeral shared-cpu-1x machine" ::
               (machinesAll.filter usableMachine).map describeMachine) ::
               (makeEphemeralMachine env app appConfig).trace⟩)
        ∧ (∀ i m, env.promptSelect ("create an ephemeral shared-cpu-1x machine" ::
              (machinesAll.filter usableMachine).map describeMachine) = .ok i →
            i ≠ 0 → (machinesAll.filter usableMachine).get? (i - 1) = some m →
            selectMachine env app appConfig =
              ⟨some m, false, none,
                [.prompted ("create an ephemeral shared-cpu-1x machine" ::
                  (machinesAll.filter usableMachine).map describeMachine)]⟩)) := by
  have hlen : env.flags.args.length = 0 := by rw [hargs]; rfl
  refine ⟨?_, ?_, fun hne => ⟨?_, ?_⟩⟩
  · intro m
    simp [List.mem_filter, usableMachine]
  · intro hempty
    unfold selectMachine promptForMachine
    rw [hsel, hlist]
    simp [hlen, hempty]
  · intro hprompt
    have hlenne : (machinesAll.filter usableMachine).length ≠ 0 := by
      simpa [List.length_eq_zero] using hne
    unfold selectMachine promptForMachine
    rw [hsel, hlist]
    simp [hlen, hlenne, hprompt]
  · intro i m hprompt hi hget
    have hlenne : (machinesAll.filter usableMachine).length ≠ 0 := by
      simpa [List.length_eq_zero] using hne
    rw [List.get?_eq_getElem?] at hget
    unfold selectMachine promptForMachine
    rw [hsel, hlist]
    simp [hlen, hlenne, hprompt, hi, hget]

/-- Witness for amended C8: with one started machine listed, choosing
index 1 returns that machine, non-ephemeral. -/
theorem interactive_pick_amended_witness :
    selectMachine envPickFirst appW cfgW =
      ⟨some startedMachine, false, none,
        [.prompted ["create an ephemeral shared-cpu-1x machine",
          describeMachine startedMachine]]⟩ :=
  ((interactive_pick_amended envPickFirst appW cfgW [startedMachine] (by decide)
      (by decide) (by decide)).2.2 (by decide)).2 1 startedMachine (by decide)
    (by decide) (by decide)

/-! ### Claims about ephemeral provisioning -/

/-- Claim C9: provisioning fails with the no-release error when the app
has no current release; otherwise every launch request it submits
carries the release image and the fixed shared-cpu-1x guest preset, and
a launch request is indeed submitted with exactly the derived
configuration overridden in those two fields. -/
theorem provision_release_image_and_fixed_size (env : Env) (app : AppCompact)
    (appConfig : AppConfig) :
    (env.getAppCurrentReleaseMachines app.name = .ok none →
      makeEphemeralMachine env app appConfig =
        ⟨none, false,
          some (.msg "cannot create an ephemeral machine since the app has not yet been released"),
          []⟩)
    ∧ (∀ rel machConfig0,
        env.getAppCurrentReleaseMachines app.name = .ok (some rel) →
        appConfig.consoleMachineConfig = .ok machConfig0 →
        Effect.launched
            ⟨app.id, app.orgId,
              { machConfig0 with
                image := rel.imageRef
                guest := MachinePresets "shared-cpu-1x" }⟩ ∈
          (makeEphemeralMachine env app appConfig).trace)
    ∧ (∀ inp, Effect.launched inp ∈ (makeEphemeralMachine env app appConfig).trace →
        ∃ rel machConfig0,
          env.getAppCurrentReleaseMachines app.name = .ok (some rel) ∧
          appConfig.consoleMachineConfig = .ok machConfig0 ∧
          inp.config.image = rel.imageRef ∧
          inp.config.guest = MachinePresets "shared-cpu-1x") := by
  refine ⟨?_, ?_, ?_⟩
  · intro hrel
    simp [makeEphemeralMachine, hrel]
  · intro rel machConfig0 hrel hcfg
    cases hl : env.flapsLaunch
        ⟨app.id, app.orgId,
          { machConfig0 with
            image := rel.imageRef
            guest := MachinePresets "shared-cpu-1x" }⟩ with
    | error e => simp [makeEphemeralMachine, hrel, hcfg, hl]
    | ok machine =>
      cases hw : env.flapsWait env.ctx machine MachineState.started 15 with
      | ok _ => simp [makeEphemeralMachine, hrel, hcfg, hl, hw]
      | error err =>
        by_cases h404 : err.as404 = true
        · by_cases hd : (checkMachineDestruction env machine (some err)).1 = true
            <;> simp [makeEphemeralMachine, hrel, hcfg, hl, hw, h404, hd]
        · simp [makeEphemeralMachine, hrel, hcfg, hl, hw, h404]
  · intro inp hmem
    unfold makeEphemeralMachine at hmem
    cases hrel : env.getAppCurrentReleaseMachines app.name with
    | error e => simp [hrel] at hmem
    | ok rel =>
      cases rel with
      | none => simp [hrel] at hmem
      | some currentRelease =>
        cases hcfg : appConfig.consoleMachineConfig with
        | error e => simp [hrel, hcfg] at hmem
        | ok machConfig0 =>
          refine ⟨currentRelease, machConfig0, rfl, rfl, ?_⟩
          cases hl : env.flapsLaunch
              ⟨app.id, app.orgId,
                { machConfig0 with
                  image := currentRelease.imageRef
                  guest := MachinePresets "shared-cpu-1x" }⟩ with
          | error e =>
            simp [hrel, hcfg, hl] at hmem
            subst hmem
            exact ⟨rfl, rfl⟩
          | ok machine =>
            cases hw : env.flapsWait env.ctx machine MachineState.started 15 with
            | ok _ =>
              simp [hrel, hcfg, hl, hw] at hmem
              subst hmem
              exact ⟨rfl, rfl⟩
            | error err =>
              by_cases h404 : err.as404 = true
              · by_cases hd : (checkMachineDestruction env machine (some err)).1 = true
                · simp [hrel, hcfg, hl, hw, h404, hd] at hmem
                  subst hmem
                  exact ⟨rfl, rfl⟩
                · simp [hrel, hcfg, hl, hw, h404, hd] at hmem
                  subst hmem
                  exact ⟨rfl, rfl⟩
              · simp [hrel, hcfg, hl, hw, h404] at hmem
                subst hmem
                exact ⟨rfl, rfl⟩

/-- Witness for C9: the no-release environment fails with the
no-release error, and the base environment submits a launch request
with the release image and the shared-cpu-1x guest. -/
theorem provision_release_image_and_fixed_size_witness :
    makeEphemeralMachine envNoRelease appW cfgW =
      ⟨none, false,
        some (.msg "cannot create an ephemeral machine since the app has not yet been released"),
        []⟩
    ∧ Effect.launched
        ⟨"appid1", "org1",
          ⟨"registry/app1:v7", MachinePresets "shared-cpu-1x", "base-config"⟩⟩ ∈
        (makeEphemeralMachine baseEnv appW cfgW).trace :=
  ⟨(provision_release_image_and_fixed_size envNoRelease appW cfgW).1 (by decide),
   (provision_release_image_and_fixed_size baseEnv appW cfgW).2.1
     ⟨"registry/app1:v7"⟩ ⟨"derived-image", none, "base-config"⟩ (by decide) (by decide)⟩

/-- Counterexample to C3 as stated: on a non-404 wait timeout the code
returns the underlying wait error unchanged — there is no StartFailed
wrapper and the machine ID does not appear in the returned error — with
no machine handle and isEphemeral = false, and the session issues no
stop call, so the caller does not attempt teardown. -/
theorem provision_timeout_counterexample :
    (makeEphemeralMachine envWaitTimeout appW cfgW).err =
      some (Err.external "timeout reached waiting for machine to started")
    ∧ (makeEphemeralMachine envWaitTimeout appW cfgW).machine = none
    ∧ (makeEphemeralMachine envWaitTimeout appW cfgW).ephemeral = false
    ∧ (runConsole envWaitTimeout).1 =
      some (Err.external "timeout reached waiting for machine to started")
    ∧ ((runConsole envWaitTimeout).2.all fun eff =>
        match eff with
        | .stopped _ _ _ => false
        | _ => true) = true := by
  decide

/-- Claim C3 as amended: when the launched machine does not report
started within the 15-time-unit budget and the failure is not 404-class,
provisioning warns that the machine may need manual destruction and
returns the underlying wait error unchanged, with no machine handle and
isEphemeral = false — cleanup is delegated to the operator, not to the
teardown of the session. -/
theorem provision_timeout_amended (env : Env) (app : AppCompact)
    (appConfig : AppConfig) (rel : Release) (machConfig0 : MachineConfig)
    (machine : Machine) (e : Err)
    (hrel : env.getAppCurrentReleaseMachines app.name = .ok (some rel))
    (hcfg : appConfig.consoleMachineConfig = .ok machConfig0)
    (hl : env.flapsLaunch
        ⟨app.id, app.orgId,
          { machConfig0 with
            image := rel.imageRef
            guest := MachinePresets "shared-cpu-1x" }⟩ = .ok machine)
    (hw : env.flapsWait env.ctx machine MachineState.started 15 = .error e)
    (h404 : e.as404 = false) :
    makeEphemeralMachine env app appConfig =
      ⟨none, false, some e,
        [.launched
            ⟨app.id, app.orgId,
              { machConfig0 with
                image := rel.imageRef
                guest := MachinePresets "shared-cpu-1x" }⟩,
         .out ("Created an ephemeral machine " ++ machine.id ++ " to run the console."),
         .waited env.ctx machine.id MachineState.started 15,
         .warn manualDestroyMachineMsg]⟩ := by
  simp [makeEphemeralMachine, hrel, hcfg, hl, hw, h404]

/-- Witness for amended C3 in the timing-out environment. -/
theorem provision_timeout_amended_witness :
    makeEphemeralMachine envWaitTimeout appW cfgW =
      ⟨none, false, some (Err.external "timeout reached waiting for machine to started"),
        [.launched
            ⟨"appid1", "org1",
              ⟨"registry/app1:v7", MachinePresets "shared-cpu-1x", "base-config"⟩⟩,
         .out "Created an ephemeral machine eph1234 to run the console.",
         .waited ⟨false, none⟩ "eph1234" MachineState.started 15,
         .warn manualDestroyMachineMsg]⟩ :=
  provision_timeout_amended envWaitTimeout appW cfgW ⟨"registry/app1:v7"⟩
    ⟨"derived-image", none, "base-config"⟩ launchedMachine
    (Err.external "timeout reached waiting for machine to started")
    (by decide) (by decide) (by decide) (by decide) (by decide)

/-! ### Claims about the session runner and teardown -/

/-- Provisioning emits no Stop call and no wait-for-destroyed call. -/
theorem make_trace_no_teardown (env : Env) (app : AppCompact)
    (appConfig : AppConfig) (c : Ctx) (i : String) (t : Nat) :
    Effect.stopped c i t ∉ (makeEphemeralMachine env app appConfig).trace ∧
    Effect.waited c i MachineState.destroyed t ∉
      (makeEphemeralMachine env app appConfig).trace := by
  cases hrel : env.getAppCurrentReleaseMachines app.name with
  | error e => simp [makeEphemeralMachine, hrel]
  | ok rel =>
    cases rel with
    | none => simp [makeEphemeralMachine, hrel]
    | some currentRelease =>
      cases hcfg : appConfig.consoleMachineConfig with
      | error e => simp [makeEphemeralMachine, hrel, hcfg]
      | ok machConfig0 =>
        cases hl : env.flapsLaunch
            ⟨app.id, app.orgId,
              { machConfig0 with
                image := currentRelease.imageRef
                guest := MachinePresets "shared-cpu-1x" }⟩ with
        | error e => simp [makeEphemeralMachine, hrel, hcfg, hl]
        | ok machine =>
          cases hw : env.flapsWait env.ctx machine MachineState.started 15 with
          | ok _ => simp [makeEphemeralMachine, hrel, hcfg, hl, hw]
          | error err =>
            by_cases h404 : err.as404 = true
            · by_cases hd : (checkMachineDestruction env machine (some err)).1 = true
                <;> simp [makeEphemeralMachine, hrel, hcfg, hl, hw, h404, hd]
            · simp [makeEphemeralMachine, hrel, hcfg, hl, hw, h404]

/-- Explicit-ID selection emits no effects at all. -/
theorem getMachineByID_trace_empty (env : Env) :
    (getMachineByID env).trace = [] := by
  simp only [getMachineByID]
  cases hg : env.flapsGet (env.flags.args.headD "") with
  | error e => rfl
  | ok machine =>
    by_cases hs : machine.state = MachineState.started
    · by_cases hr : machine.isReleaseCommand = true <;> simp [hs, hr]
    · simp [hs]

/-- Interactive selection emits no Stop call and no wait-for-destroyed
call. -/
theorem prompt_trace_no_teardown (env : Env) (app : AppCompact)
    (appConfig : AppConfig) (c : Ctx) (i : String) (t : Nat) :
    Effect.stopped c i t ∉ (promptForMachine env app appConfig).trace ∧
    Effect.waited c i MachineState.destroyed t ∉
      (promptForMachine env app appConfig).trace := by
  by_cases hargs : env.flags.args.length ≠ 0
  · simp [promptForMachine, hargs]
  · cases hlist : env.flapsListActive with
    | error e => simp [promptForMachine, hargs, hlist]
    | ok machinesAll =>
      by_cases hlen : (machinesAll.filter usableMachine).length = 0
      · simp [promptForMachine, hargs, hlist, hlen]
      · cases hp : env.promptSelect ("create an ephemeral shared-cpu-1x machine" ::
            (machinesAll.filter usableMachine).map describeMachine) with
        | error e => simp [promptForMachine, hargs, hlist, hlen, hp]
        | ok index =>
          by_cases hi : index = 0
          · have hmk := make_trace_no_teardown env app appConfig c i t
            simp [promptForMachine, hargs, hlist, hlen, hp, hi, hmk.1, hmk.2]
          · cases hg : (machinesAll.filter usableMachine)[index - 1]? with
            | some m => simp [promptForMachine, hargs, hlist, hlen, hp, hi, hg]
            | none => simp [promptForMachine, hargs, hlist, hlen, hp, hi, hg]

/-- Machine selection emits no Stop call and no wait-for-destroyed
call: the only stop and wait-for-destroyed calls of a session are the
teardown ones. -/
theorem select_trace_no_teardown (env : Env) (app : AppCompact)
    (appConfig : AppConfig) (c : Ctx) (i : String) (t : Nat) :
    Effect.stopped c i t ∉ (selectMachine env app appConfig).trace ∧
    Effect.waited c i MachineState.destroyed t ∉
      (selectMachine env app appConfig).trace := by
  by_cases hsel : env.flags.selectFlag = true
  · simpa [selectMachine, hsel] using
      prompt_trace_no_teardown env app appConfig c i t
  · by_cases hlen : env.flags.args.length = 1
    · simp [selectMachine, hsel, hlen, getMachineByID_trace_empty env]
    · simpa [selectMachine, hsel, hlen] using
        make_trace_no_teardown env app appConfig c i t

/-- The Stop calls of the teardown sequence: exactly one, on the
machine's ID, under the fresh background-derived 5-time-unit context. -/
theorem teardown_stopped_mem (env : Env) (m : Machine) (c : Ctx) (i : String)
    (t : Nat) :
    Effect.stopped c i t ∈ teardownMachine env m ↔
      (c = Ctx.withTimeout Ctx.background 5 ∧ i = m.id ∧ t = 5) := by
  simp only [teardownMachine]
  cases hs : env.flapsStop (Ctx.withTimeout Ctx.background 5) m.id 5 with
  | error e => simp [hs]
  | ok _ =>
    cases hw : env.flapsWait (Ctx.withTimeout Ctx.background 5) m
        MachineState.destroyed 5 with
    | error e => simp [hw]
    | ok _ => simp [hw]

/-- Any wait-for-destroyed call of the teardown sequence targets the
machine's ID under the same fresh 5-time-unit context. -/
theorem teardown_waited_mem (env : Env) (m : Machine) (c : Ctx) (i : String)
    (t : Nat) :
    Effect.waited c i MachineState.destroyed t ∈ teardownMachine env m →
      (c = Ctx.withTimeout Ctx.background 5 ∧ i = m.id ∧ t = 5) := by
  simp only [teardownMachine]
  cases hs : env.flapsStop (Ctx.withTimeout Ctx.background 5) m.id 5 with
  | error e => intro h; simp at h
  | ok _ =>
    cases hw : env.flapsWait (Ctx.withTimeout Ctx.background 5) m
        MachineState.destroyed 5 with
    | error e => intro h; simpa using h
    | ok _ => intro h; simpa using h

/-- Reduction of runConsole once a machine has been selected: the
session error is the main-flow error, and the teardown trace is
appended exactly when the selection was ephemeral. -/
theorem runConsole_reaches (env : Env) (app : AppCompact)
    (appConfig : AppConfig) (m : Machine) (eph : Bool) (tr : List Effect)
    (h1 : env.getAppCompact env.appName = .ok app)
    (h2 : app.platformVersion = "machines")
    (h3 : env.flapsNew app = .ok ())
    (h4 : resolveAppConfig env = .ok appConfig)
    (h5 : appConfig.validationError = none)
    (h6 : selectMachine env app appConfig = ⟨some m, eph, none, tr⟩) :
    runConsole env =
      (mainFlow env appConfig m,
        if eph then tr ++ teardownMachine env m else tr) := by
  cases eph <;> simp [runConsole, h1, h2, h3, h4, h5, h6]

/-- Claim C1: the teardown Stop call appears in the session trace
exactly when the selection was ephemeral; every Stop call and every
wait-for-destroyed call of the session targets the selected machine
under the fresh background-derived 5-time-unit context (independent of
the caller's possibly-cancelled context), and none occurs at all for a
non-ephemeral selection. -/
theorem teardown_exactly_when_ephemeral (env : Env) (app : AppCompact)
    (appConfig : AppConfig) (m : Machine) (eph : Bool) (tr : List Effect)
    (h1 : env.getAppCompact env.appName = .ok app)
    (h2 : app.platformVersion = "machines")
    (h3 : env.flapsNew app = .ok ())
    (h4 : resolveAppConfig env = .ok appConfig)
    (h5 : appConfig.validationError = none)
    (h6 : selectMachine env app appConfig = ⟨some m, eph, none, tr⟩) :
    (Effect.stopped (Ctx.withTimeout Ctx.background 5) m.id 5 ∈
        (runConsole env).2 ↔ eph = true)
    ∧ (∀ c i t, Effect.stopped c i t ∈ (runConsole env).2 →
        c = Ctx.withTimeout Ctx.background 5 ∧ i = m.id ∧ t = 5)
    ∧ (∀ c i t, Effect.waited c i MachineState.destroyed t ∈ (runConsole env).2 →
        eph = true ∧ c = Ctx.withTimeout Ctx.background 5 ∧ i = m.id ∧ t = 5) := by
  have h6t : (selectMachine env app appConfig).trace = tr := by rw [h6]
  have hsel := fun c i t => select_trace_no_teardown env app appConfig c i t
  rw [h6t] at hsel
  rw [runConsole_reaches env app appConfig m eph tr h1 h2 h3 h4 h5 h6]
  cases eph with
  | false =>
    refine ⟨?_, ?_, ?_⟩
    · simp [(hsel _ _ _).1]
    · intro c i t hmem
      exact absurd hmem (hsel c i t).1
    · intro c i t hmem
      exact absurd hmem (hsel c i t).2
  | true =>
    refine ⟨?_, ?_, ?_⟩
    · refine iff_of_true ?_ rfl
      have hm : Effect.stopped (Ctx.withTimeout Ctx.background 5) m.id 5 ∈
          tr ++ teardownMachine env m :=
        List.mem_append.mpr
          (Or.inr ((teardown_stopped_mem env m _ _ _).mpr ⟨rfl, rfl, rfl⟩))
      simpa using hm
    · intro c i t hmem
      have hmem' : Effect.stopped c i t ∈ tr ++ teardownMachine env m := by
        simpa using hmem
      rcases List.mem_append.mp hmem' with h | h
      · exact absurd h (hsel c i t).1
      · exact (teardown_stopped_mem env m c i t).mp h
    · intro c i t hmem
      have hmem' : Effect.waited c i MachineState.destroyed t ∈
          tr ++ teardownMachine env m := by
        simpa using hmem
      rcases List.mem_append.mp hmem' with h | h
      · exact absurd h (hsel c i t).2
      · exact ⟨rfl, teardown_waited_mem env m c i t h⟩

/-- Witness for C1: in the base environment the selection is ephemeral
and the session trace contains the teardown Stop call on the fresh
5-time-unit context. -/
theorem teardown_exactly_when_ephemeral_witness :
    Effect.stopped (Ctx.withTimeout Ctx.background 5) launchedMachine.id 5 ∈
      (runConsole baseEnv).2 :=
  (teardown_exactly_when_ephemeral baseEnv appW cfgW launchedMachine true ephTrace
      (by decide) rfl (by decide) (by decide) rfl (by decide)).1.mpr rfl

/-- Claim C4: the session's returned error is the pre-teardown
main-flow error in every scenario — teardown alters neither it nor
produces an error of its own — and when the stop request fails the
teardown sequence is exactly the stop attempt followed by two warnings,
with no wait-for-destroyed step. -/
theorem teardown_never_escalates (env : Env) (app : AppCompact)
    (appConfig : AppConfig) (m : Machine) (eph : Bool) (tr : List Effect)
    (h1 : env.getAppCompact env.appName = .ok app)
    (h2 : app.platformVersion = "machines")
    (h3 : env.flapsNew app = .ok ())
    (h4 : resolveAppConfig env = .ok appConfig)
    (h5 : appConfig.validationError = none)
    (h6 : selectMachine env app appConfig = ⟨some m, eph, none, tr⟩) :
    (runConsole env).1 = mainFlow env appConfig m
    ∧ (∀ e, env.flapsStop (Ctx.withTimeout Ctx.background 5) m.id 5 = .error e →
        teardownMachine env m =
          [.stopped (Ctx.withTimeout Ctx.background 5) m.id 5,
           .warn "Failed to stop ephemeral machine",
           .warn manualDestroyItMsg]) := by
  refine ⟨?_, ?_⟩
  · rw [runConsole_reaches env app appConfig m eph tr h1 h2 h3 h4 h5 h6]
  · intro e hstop
    simp [teardownMachine, hstop]

/-- Witness for C4: with a failing stop oracle the session still
reports the main-flow (nil) error and the teardown trace is the stop
attempt plus the two warnings only. -/
theorem teardown_never_escalates_witness :
    (runConsole envStopFails).1 = none
    ∧ teardownMachine envStopFails launchedMachine =
      [.stopped (Ctx.withTimeout Ctx.background 5) "eph1234" 5,
       .warn "Failed to stop ephemeral machine",
       .warn manualDestroyItMsg] :=
  ⟨((teardown_never_escalates envStopFails appW cfgW launchedMachine true ephTrace
      (by decide) rfl (by decide) (by decide) rfl (by decide)).1).trans (by decide),
   (teardown_never_escalates envStopFails appW cfgW launchedMachine true ephTrace
      (by decide) rfl (by decide) (by decide) rfl (by decide)).2
     (Err.external "stop rpc failed") (by decide)⟩

end Console
